import Mathlib

/-!
Shallow embedding of the event record reader of libevtx
(src/libevtx/libevtx_event_values.c) and proofs about it.

The chunk buffer is a list of byte values; machine arithmetic that can
wrap in the C source (the `uint32_t` expression `size - 4` and the
`size_t` expression `size - 28`) is written with an explicit `% 2 ^ w`.
A buffer access outside the list models an out-of-bounds memory access,
which is undefined behavior in the C source; the embedding returns the
distinguished outcome `ReadError.memoryViolation` there.

The binary XML token reader (libevtx_binary_xml_token_read) is an
external collaborator whose source is out of scope; it is modelled as a
function from the cursor offset to `Option` of the token size it
reports (`none` models a decode failure).  The C while loop has no
fuel; the embedding takes a fuel argument and returns
`ReadError.outOfFuel` when the fuel runs out with the loop condition
still true, so nontermination of the C loop is visible as
`outOfFuel` for every fuel value.
-/

deriving instance DecidableEq for Except

namespace Libevtx

/-- The bytes `chunk[off], ..., chunk[off + n - 1]`, or `none` when the
range leaves the buffer (an out-of-bounds access in the C source). -/
def read_bytes (chunk : List ℕ) (off n : ℕ) : Option (List ℕ) :=
  if off + n ≤ chunk.length then some ((chunk.drop off).take n) else none

/-- Value of a little-endian byte sequence (first byte least
significant), as in the byte_stream_copy_to_uintXX_little_endian
macros. -/
def le_of_bytes (bytes : List ℕ) : ℕ :=
  bytes.foldr (fun b acc => acc * 256 + b) 0

/-- Little-endian read of `n` bytes at `off`, or `none` out of bounds. -/
def read_le (chunk : List ℕ) (off n : ℕ) : Option ℕ :=
  (read_bytes chunk off n).map le_of_bytes

/-- Modelled from the spec: the header file evtx_event_record.h that
defines `evtx_event_record_header_t` is not under src/.  The binary
layout table of the spec gives signature at offset 0 (4 bytes), size at
offset 4 (4 bytes), identifier at offset 8 (8 bytes), creation_time at
offset 16 (8 bytes), so the header occupies 24 bytes. -/
def evtx_event_record_header_size : ℕ := 24

/-- The fixed record signature bytes 2A 2A 00 00
(`evtx_event_record_signature` at line 36 of the C source). -/
def evtx_event_record_signature : List ℕ := [0x2a, 0x2a, 0x00, 0x00]

/-- `SSIZE_MAX` for the 64-bit `size_t` of the C source. -/
def ssize_max : ℕ := 2 ^ 63 - 1

/-- The fields of `libevtx_event_values_t` written by
libevtx_event_values_read. -/
structure EventValues where
  size : ℕ
  identifier : ℕ
  creation_time : ℕ
deriving DecidableEq

/-- The zeroed structure produced by libevtx_event_values_initialize. -/
def zeroed_event_values : EventValues := ⟨0, 0, 0⟩

/-- Outcomes of the reader.  The first five mirror the liberror codes
set by the C source; `memoryViolation` marks a buffer access outside
the chunk (undefined behavior in C); `outOfFuel` marks fuel exhaustion
with the while condition still true (the C loop has not terminated). -/
inductive ReadError
  | sizeExceedsMaximum
  | offsetOutOfBounds
  | dataSizeTooSmall
  | unsupportedSignature
  | sizeOutOfBounds
  | tokenReadFailed
  | memoryViolation
  | outOfFuel
deriving DecidableEq

/-- Lines 145-326 of libevtx_event_values.c: argument checks, header
field extraction and the size bounds check, up to the point where the
token loop starts.  Returns the outcome together with the final state
of `event_values` (the C source writes `size`, `identifier` and
`creation_time` into `event_values` at lines 259-269, before the read
of the trailing size copy at line 271 and the bounds check at line 310,
so error returns taken after line 269 carry the modified structure).
The read of the trailing size copy happens at index
`event_values->size - 4`, a `uint32_t` subtraction that wraps modulo
2 ^ 32, and it happens before the size bounds check. -/
def libevtx_event_values_read_header (event_values : EventValues)
    (chunk_data : List ℕ) (chunk_data_offset : ℕ) :
    Except ReadError Unit × EventValues :=
  if chunk_data.length > ssize_max then
    (.error .sizeExceedsMaximum, event_values)
  else if chunk_data_offset ≥ chunk_data.length then
    (.error .offsetOutOfBounds, event_values)
  else if chunk_data.length - chunk_data_offset <
      evtx_event_record_header_size + 4 then
    (.error .dataSizeTooSmall, event_values)
  else
    match read_bytes chunk_data chunk_data_offset 4 with
    | none => (.error .memoryViolation, event_values)
    | some signature_bytes =>
      if signature_bytes ≠ evtx_event_record_signature then
        (.error .unsupportedSignature, event_values)
      else
        match read_le chunk_data (chunk_data_offset + 4) 4,
              read_le chunk_data (chunk_data_offset + 8) 8,
              read_le chunk_data (chunk_data_offset + 16) 8 with
        | some size_value, some identifier_value, some creation_time_value =>
          match read_le chunk_data
              (chunk_data_offset + (size_value + 2 ^ 32 - 4) % 2 ^ 32) 4 with
          | none =>
            (.error .memoryViolation,
              ⟨size_value, identifier_value, creation_time_value⟩)
          | some _copy_of_size =>
            if size_value < evtx_event_record_header_size
                ∨ size_value > (chunk_data.length - chunk_data_offset) - 4 then
              (.error .sizeOutOfBounds,
                ⟨size_value, identifier_value, creation_time_value⟩)
            else
              (.ok (), ⟨size_value, identifier_value, creation_time_value⟩)
        | _, _, _ => (.error .memoryViolation, event_values)

/-- Lines 343-390 of libevtx_event_values.c: the token walk.  The C
loop condition is `chunk_data_offset < chunk_data_size` — the whole
chunk, not the payload end.  `decoder` models
libevtx_binary_xml_token_read: given the cursor it yields the size the
token reports (`binary_xml_token->size`), or `none` on failure, upon
which the C returns -1.  Each iteration advances the cursor by the
reported size with no zero-progress or overrun check.  The returned
list collects the reported token sizes, one per executed iteration. -/
def walk_tokens (chunk_data_size : ℕ) (decoder : ℕ → Option ℕ) :
    ℕ → ℕ → Except ReadError (List ℕ)
  | 0, chunk_data_offset =>
    if chunk_data_offset < chunk_data_size then .error .outOfFuel else .ok []
  | fuel + 1, chunk_data_offset =>
    if chunk_data_offset < chunk_data_size then
      match decoder chunk_data_offset with
      | none => .error .tokenReadFailed
      | some token_size =>
        (walk_tokens chunk_data_size decoder fuel
            (chunk_data_offset + token_size)).map
          (fun tokens => token_size :: tokens)
    else .ok []

/-- The whole of libevtx_event_values_read: header validation followed
by the token walk, which starts at
`chunk_data_offset + sizeof( evtx_event_record_header_t )`
(line 323) and runs to `chunk_data_size` (line 343). -/
def libevtx_event_values_read (event_values : EventValues)
    (chunk_data : List ℕ) (chunk_data_offset : ℕ)
    (decoder : ℕ → Option ℕ) (fuel : ℕ) :
    Except ReadError (List ℕ) × EventValues :=
  match libevtx_event_values_read_header event_values chunk_data
      chunk_data_offset with
  | (.error e, ev) => (.error e, ev)
  | (.ok _, ev) =>
    (walk_tokens chunk_data.length decoder fuel
        (chunk_data_offset + evtx_event_record_header_size), ev)

/-- Line 323 of the C source: the payload starts right after the
header. -/
def payload_offset (chunk_data_offset : ℕ) : ℕ :=
  chunk_data_offset + evtx_event_record_header_size

/-- Lines 325-326 of the C source: the payload length is
`size - ( sizeof( evtx_event_record_header_t ) + 4 )`, a `size_t`
subtraction that wraps modulo 2 ^ 64. -/
def payload_length (size : ℕ) : ℕ :=
  (size + 2 ^ 64 - (evtx_event_record_header_size + 4)) % 2 ^ 64

/-- Lines 114-140 of libevtx_event_values.c: libevtx_event_values_free.
The argument is a pointer to a pointer: `none` models a NULL handle,
`some inner` a valid handle whose target is `inner`.  Returns the C
return value together with the state of the handle after the call. -/
def libevtx_event_values_free :
    Option (Option EventValues) → Int × Option (Option EventValues)
  | none => (-1, none)
  | some (some _) => (1, some none)
  | some none => (1, some none)

/-- A 32-byte chunk holding at offset 0 one record of declared size
0x1C = 28: signature, size, identifier 1, creation_time 2, the trailing
size copy, then 4 further chunk bytes.  Its payload length is 0. -/
def chunk_zero_payload : List ℕ :=
  [0x2a, 0x2a, 0x00, 0x00,
   28, 0, 0, 0,
   1, 0, 0, 0, 0, 0, 0, 0,
   2, 0, 0, 0, 0, 0, 0, 0,
   28, 0, 0, 0,
   0, 0, 0, 0]

/-- The same 32-byte chunk with the size field set to 0. -/
def chunk_size_field_zero : List ℕ :=
  [0x2a, 0x2a, 0x00, 0x00,
   0, 0, 0, 0,
   1, 0, 0, 0, 0, 0, 0, 0,
   2, 0, 0, 0, 0, 0, 0, 0,
   28, 0, 0, 0,
   0, 0, 0, 0]

/-- The same 32-byte chunk with the size field set to 24, equal to the
header size, four less than a record with a trailing copy can be. -/
def chunk_size_field_24 : List ℕ :=
  [0x2a, 0x2a, 0x00, 0x00,
   24, 0, 0, 0,
   1, 0, 0, 0, 0, 0, 0, 0,
   2, 0, 0, 0, 0, 0, 0, 0,
   24, 0, 0, 0,
   0, 0, 0, 0]

/-- The same 32-byte chunk with the size field set to 29, which fails
the upper size bound 32 - 0 - 4 = 28. -/
def chunk_size_field_29 : List ℕ :=
  [0x2a, 0x2a, 0x00, 0x00,
   29, 0, 0, 0,
   1, 0, 0, 0, 0, 0, 0, 0,
   2, 0, 0, 0, 0, 0, 0, 0,
   29, 0, 0, 0,
   0, 0, 0, 0]

/-- Inversion of a successful header validation: the size, identifier
and creation_time fields of the returned structure are the
little-endian reads at offsets 4, 8 and 16 of the record, the accepted
size lies between the header size and the remaining buffer length
minus 4, and the chunk passed the SSIZE_MAX check. -/
theorem read_header_ok_spec (ev ev' : EventValues) (chunk : List ℕ)
    (off : ℕ)
    (h : libevtx_event_values_read_header ev chunk off = (.ok (), ev')) :
    read_le chunk (off + 4) 4 = some ev'.size ∧
    read_le chunk (off + 8) 8 = some ev'.identifier ∧
    read_le chunk (off + 16) 8 = some ev'.creation_time ∧
    evtx_event_record_header_size ≤ ev'.size ∧
    ev'.size + 4 ≤ chunk.length - off ∧
    evtx_event_record_header_size + 4 ≤ chunk.length - off ∧
    chunk.length ≤ ssize_max := by
  unfold libevtx_event_values_read_header at h
  split at h
  · simp at h
  rename_i hc1
  split at h
  · simp at h
  rename_i hc2
  split at h
  · simp at h
  rename_i hc3
  split at h
  · simp at h
  rename_i sb hsb
  split at h
  · simp at h
  rename_i hsig
  split at h
  case _ s i c h4 h8 h16 =>
    split at h
    · simp at h
    rename_i copy hcopy
    split at h
    · simp at h
    rename_i hsize
    rw [Prod.mk.injEq] at h
    obtain ⟨-, hev⟩ := h
    subst hev
    have hs1 : ¬ s < evtx_event_record_header_size := (not_or.mp hsize).1
    have hs2 : ¬ s > chunk.length - off - 4 := (not_or.mp hsize).2
    refine ⟨h4, h8, h16, ?_, ?_, ?_, ?_⟩
    · show evtx_event_record_header_size ≤ s
      omega
    · show s + 4 ≤ chunk.length - off
      omega
    · omega
    · omega
  all_goals simp at h

/-- Each branch of the header validation either returns the
event_values argument unchanged, or returns one of the two outcomes
reached after the header fields have been written (memoryViolation at
the trailing-copy read, or the size bounds failure), or succeeds. -/
theorem read_header_cases (ev : EventValues) (chunk : List ℕ)
    (off : ℕ) :
    (libevtx_event_values_read_header ev chunk off).2 = ev
    ∨ (libevtx_event_values_read_header ev chunk off).1
        = .error .memoryViolation
    ∨ (libevtx_event_values_read_header ev chunk off).1
        = .error .sizeOutOfBounds
    ∨ (libevtx_event_values_read_header ev chunk off).1 = .ok () := by
  unfold libevtx_event_values_read_header
  repeat first
    | (left; rfl)
    | (right; left; rfl)
    | (right; right; left; rfl)
    | (right; right; right; rfl)
    | split

/-- When the header validation fails with one of the four errors that
the C source detects before line 259, the event_values argument is
returned unchanged. -/
theorem read_header_early_error_snd (ev : EventValues) (chunk : List ℕ)
    (off : ℕ) (e : ReadError)
    (h : (libevtx_event_values_read_header ev chunk off).1 = .error e)
    (he : e = ReadError.sizeExceedsMaximum
      ∨ e = ReadError.offsetOutOfBounds
      ∨ e = ReadError.dataSizeTooSmall
      ∨ e = ReadError.unsupportedSignature) :
    (libevtx_event_values_read_header ev chunk off).2 = ev := by
  rcases read_header_cases ev chunk off with hc | hc | hc | hc
  · exact hc
  · rw [hc] at h
    cases h
    rcases he with he | he | he | he <;> simp at he
  · rw [hc] at h
    cases h
    rcases he with he | he | he | he <;> simp at he
  · rw [hc] at h
    cases h

/-- The token walk only ever fails with tokenReadFailed or with
outOfFuel. -/
theorem walk_tokens_error_cases (n : ℕ) (decoder : ℕ → Option ℕ) :
    ∀ fuel off e, walk_tokens n decoder fuel off = .error e →
      e = ReadError.tokenReadFailed ∨ e = ReadError.outOfFuel := by
  intro fuel
  induction fuel with
  | zero =>
    intro off e h
    unfold walk_tokens at h
    split at h
    · right
      cases h
      rfl
    · simp at h
  | succ k ih =>
    intro off e h
    unfold walk_tokens at h
    split at h
    · split at h
      · left
        cases h
        rfl
      · rename_i ts hts
        cases hw : walk_tokens n decoder k (off + ts) with
        | error e2 =>
          rw [hw] at h
          have he2 : e2 = e := by simpa [Except.map] using h
          exact he2 ▸ ih (off + ts) e2 hw
        | ok l =>
          rw [hw] at h
          simp [Except.map] at h
    · simp at h

/-- A successful result of the whole reader comes from a successful
header validation, whose returned structure is the second component of
the result. -/
theorem read_fst_ok (ev : EventValues) (chunk : List ℕ) (off : ℕ)
    (decoder : ℕ → Option ℕ) (fuel : ℕ) (tokens : List ℕ)
    (h : (libevtx_event_values_read ev chunk off decoder fuel).1
      = .ok tokens) :
    libevtx_event_values_read_header ev chunk off
      = (.ok (),
        (libevtx_event_values_read ev chunk off decoder fuel).2) := by
  unfold libevtx_event_values_read at h ⊢
  split at h
  · simp at h
  · rename_i u ev2 heq
    cases u
    rw [heq]

/-- A decoder that always reports size 0 leaves the loop cursor where
it is, so the loop of lines 343-390 never exits: for every fuel the
walk is still unfinished. -/
theorem walk_tokens_zero_progress (n : ℕ) (decoder : ℕ → Option ℕ)
    (h0 : ∀ o, decoder o = some 0) :
    ∀ fuel off, off < n →
      walk_tokens n decoder fuel off = .error .outOfFuel := by
  intro fuel
  induction fuel with
  | zero =>
    intro off ho
    unfold walk_tokens
    rw [if_pos ho]
  | succ k ih =>
    intro off ho
    have h' := ih (off + 0) (by omega)
    unfold walk_tokens
    rw [if_pos ho, h0 off]
    show Except.map (fun tokens => 0 :: tokens)
        (walk_tokens n decoder k (off + 0)) = Except.error ReadError.outOfFuel
    rw [h']
    rfl

/-- C1: the claim says the token loop decodes only while the cursor is
below payload_end, so a record with payload_length 0 decodes
successfully with no token read.  The code instead loops while the
cursor is below chunk_data_size: on a 32-byte chunk holding one record
of size 28 (payload_length 0), the loop body runs at cursor 24 and
invokes the token decoder, so a failing decoder makes the whole read
fail instead of succeeding with an empty token sequence. -/
theorem c1_loop_body_runs_on_zero_payload :
    payload_length 28 = 0 ∧
    libevtx_event_values_read zeroed_event_values chunk_zero_payload 0
      (fun _ => none) 4 = (.error .tokenReadFailed, ⟨28, 1, 2⟩) := by
  decide

/-- C2: the claim says a token whose consumed bytes push the cursor
past payload_end must fail with TokenOverrun, and on success the sizes
sum to payload_length.  The code has no such check: on the zero-payload
record a decoder reporting 8 bytes at cursor 24 runs to the chunk end
and the read succeeds with token sizes summing to 8, not to
payload_length 0. -/
theorem c2_no_overrun_check :
    libevtx_event_values_read zeroed_event_values chunk_zero_payload 0
      (fun _ => some 8) 2 = (.ok [8], ⟨28, 1, 2⟩) ∧
    payload_length 28 = 0 ∧
    List.sum [8] ≠ payload_length 28 ∧
    payload_offset 0 + payload_length 28 < 24 + 8 := by
  decide

/-- C3: the claim says a declared size of 0 is rejected with
OutOfBounds before any further read.  The code reads the trailing size
copy at index size - 4 (a wrapping uint32 subtraction) before the size
bounds check, so with size 0 it accesses index 4294967292 of a 32-byte
chunk: an out-of-bounds read, not the claimed clean rejection. -/
theorem c3_copy_read_before_bounds_check :
    libevtx_event_values_read_header zeroed_event_values
      chunk_size_field_zero 0 = (.error .memoryViolation, ⟨0, 1, 2⟩) ∧
    ReadError.memoryViolation ≠ ReadError.sizeOutOfBounds := by
  decide

/-- C4: the claim says a token of consumed size 0 makes the walker fail
with NoProgress.  The code has no zero-progress check: with a decoder
that always reports size 0 the cursor never moves and the loop never
terminates, which the embedding shows as outOfFuel for every fuel. -/
theorem c4_zero_size_token_loops_forever (fuel : ℕ) :
    libevtx_event_values_read zeroed_event_values chunk_zero_payload 0
      (fun _ => some 0) fuel = (.error .outOfFuel, ⟨28, 1, 2⟩) := by
  have hh : libevtx_event_values_read_header zeroed_event_values
      chunk_zero_payload 0 = (.ok (), ⟨28, 1, 2⟩) := by decide
  have hw := walk_tokens_zero_progress chunk_zero_payload.length
    (fun _ => some 0) (fun _ => rfl) fuel
    (0 + evtx_event_record_header_size) (by decide)
  unfold libevtx_event_values_read
  rw [hh, hw]

/-- C5: the claim says that with every token of size at least 1 the
loop terminates within payload_length iterations.  The loop does
terminate, but it is bounded by the chunk end, not the payload end: on
the zero-payload record (payload_length 0) a decoder reporting size 1
yields 8 iterations, one per remaining chunk byte. -/
theorem c5_iterations_exceed_payload_length :
    libevtx_event_values_read zeroed_event_values chunk_zero_payload 0
      (fun _ => some 1) 10 = (.ok [1, 1, 1, 1, 1, 1, 1, 1], ⟨28, 1, 2⟩) ∧
    payload_length 28 = 0 ∧
    List.length [1, 1, 1, 1, 1, 1, 1, 1] > payload_length 28 := by
  decide

/-- C6 counterexample: the claim says that on an error return the
event_values structure is unmodified.  On a record whose size field 29
fails the bounds check, the reader returns an error yet has already
written size 29, identifier 1 and creation_time 2 into the structure
that started zeroed. -/
theorem c6_counterexample :
    libevtx_event_values_read zeroed_event_values chunk_size_field_29 0
      (fun _ => none) 0 = (.error .sizeOutOfBounds, ⟨29, 1, 2⟩) ∧
    (⟨29, 1, 2⟩ : EventValues) ≠ zeroed_event_values := by
  decide

/-- C6 amended: the reader never mutates the chunk buffer (the
embedding is a pure function of it), and event_values is returned
unmodified on the errors detected before the header fields are
extracted: size exceeds maximum, offset out of bounds, data too small,
unsupported signature.  On errors detected later (the trailing-copy
read, the size bounds check, token failures) the structure has already
received the header fields. -/
theorem c6_amended_early_errors_leave_event_values
    (ev : EventValues) (chunk : List ℕ) (off : ℕ)
    (decoder : ℕ → Option ℕ) (fuel : ℕ) (e : ReadError)
    (h : (libevtx_event_values_read ev chunk off decoder fuel).1
      = .error e)
    (he : e = ReadError.sizeExceedsMaximum
      ∨ e = ReadError.offsetOutOfBounds
      ∨ e = ReadError.dataSizeTooSmall
      ∨ e = ReadError.unsupportedSignature) :
    (libevtx_event_values_read ev chunk off decoder fuel).2 = ev := by
  unfold libevtx_event_values_read at h ⊢
  split at h
  · rename_i e2 ev2 heq
    have he2 : e2 = e := by simpa using h
    have hs := read_header_early_error_snd ev chunk off e
      (by rw [heq, he2]) he
    rw [heq] at hs
    exact hs
  · rename_i u ev2 heq
    exfalso
    rcases walk_tokens_error_cases chunk.length decoder fuel
        (off + evtx_event_record_header_size) e (by simpa using h)
      with hw | hw <;>
      rcases he with he | he | he | he <;> simp [hw] at he

/-- C6 amended, witness at the empty chunk: the offset check fails and
the zeroed structure is returned unchanged. -/
theorem c6_amended_early_errors_leave_event_values_witness :
    (libevtx_event_values_read zeroed_event_values [] 0
        (fun _ => none) 0).1 = .error .offsetOutOfBounds ∧
    (libevtx_event_values_read zeroed_event_values [] 0
        (fun _ => none) 0).2 = zeroed_event_values :=
  ⟨by decide,
    c6_amended_early_errors_leave_event_values zeroed_event_values [] 0
      (fun _ => none) 0 .offsetOutOfBounds (by decide)
      (Or.inr (Or.inl rfl))⟩

/-- C7 counterexample: the validator accepts a record whose size field
is 24 (it only requires size at least the header size 24), and there
the size_t computation of payload_length wraps: the round-trip identity
fails over the natural numbers. -/
theorem c7_counterexample :
    libevtx_event_values_read_header zeroed_event_values
      chunk_size_field_24 0 = (.ok (), ⟨24, 1, 2⟩) ∧
    payload_offset 0 + payload_length (24 : ℕ) + 4 ≠ 0 + 24 := by
  decide

/-- C7 amended: for every record accepted by the header validation
whose size is at least header size + 4 = 28, the identity
payload_offset + payload_length + 4 = record_start + size holds
exactly; the accepted sizes 24 to 27 wrap in the size_t subtraction and
satisfy it only modulo 2 ^ 64. -/
theorem c7_round_trip_of_size_ge_28 (ev ev' : EventValues)
    (chunk : List ℕ) (off : ℕ)
    (h : libevtx_event_values_read_header ev chunk off = (.ok (), ev'))
    (h28 : evtx_event_record_header_size + 4 ≤ ev'.size) :
    payload_offset off + payload_length ev'.size + 4 = off + ev'.size := by
  obtain ⟨-, -, -, -, hhi, hrem, hmax⟩ :=
    read_header_ok_spec ev ev' chunk off h
  have hs : ev'.size ≤ chunk.length := by omega
  have hs2 : ev'.size ≤ ssize_max := le_trans hs hmax
  have e63 : ssize_max = 9223372036854775807 := by norm_num [ssize_max]
  have e24 : evtx_event_record_header_size = 24 := rfl
  have e64 : (2 : ℕ) ^ 64 = 18446744073709551616 := by norm_num
  unfold payload_offset payload_length
  rw [e24] at h28 ⊢
  rw [e63] at hs2
  rw [e64]
  omega

/-- C7 amended, witness at the record of size 28 with zero payload. -/
theorem c7_round_trip_of_size_ge_28_witness :
    libevtx_event_values_read_header zeroed_event_values
      chunk_zero_payload 0 = (.ok (), ⟨28, 1, 2⟩) ∧
    evtx_event_record_header_size + 4 ≤ (EventValues.mk 28 1 2).size ∧
    payload_offset 0 + payload_length (EventValues.mk 28 1 2).size + 4
      = 0 + (EventValues.mk 28 1 2).size :=
  ⟨by decide, by decide,
    c7_round_trip_of_size_ge_28 zeroed_event_values ⟨28, 1, 2⟩
      chunk_zero_payload 0 (by decide) (by decide)⟩

/-- C8: under preconditions 1 to 3 (buffer length within SSIZE_MAX,
offset strictly inside the buffer, at least header size + 4 bytes
remaining), any chunk whose 4 bytes at the probed offset differ from
2A 2A 00 00 is rejected with the unsupported-signature error,
whatever the other header fields hold. -/
theorem c8_signature_gate (ev : EventValues) (chunk : List ℕ)
    (off : ℕ)
    (hmax : chunk.length ≤ ssize_max)
    (hoff : off < chunk.length)
    (hrem : evtx_event_record_header_size + 4 ≤ chunk.length - off)
    (hsig : (chunk.drop off).take 4 ≠ evtx_event_record_signature) :
    libevtx_event_values_read_header ev chunk off
      = (.error .unsupportedSignature, ev) := by
  have e24 : evtx_event_record_header_size = 24 := rfl
  have h4 : off + 4 ≤ chunk.length := by omega
  have hrb : read_bytes chunk off 4 = some ((chunk.drop off).take 4) := by
    unfold read_bytes
    rw [if_pos h4]
  unfold libevtx_event_values_read_header
  rw [if_neg (by omega), if_neg (by omega), if_neg (by omega)]
  simp only [hrb]
  rw [if_pos hsig]

/-- C8 witness: a 32-byte all-zero chunk satisfies the preconditions
and carries the all-zero signature, which is rejected. -/
theorem c8_signature_gate_witness :
    (List.replicate 32 0 : List ℕ).length ≤ ssize_max ∧
    0 < (List.replicate 32 0 : List ℕ).length ∧
    evtx_event_record_header_size + 4
      ≤ (List.replicate 32 0 : List ℕ).length - 0 ∧
    ((List.replicate 32 0 : List ℕ).drop 0).take 4
      ≠ evtx_event_record_signature ∧
    libevtx_event_values_read_header zeroed_event_values
      (List.replicate 32 0) 0
      = (.error .unsupportedSignature, zeroed_event_values) :=
  ⟨by decide, by decide, by decide, by decide,
    c8_signature_gate zeroed_event_values (List.replicate 32 0) 0
      (by decide) (by decide) (by decide) (by decide)⟩

/-- C9: on every successful read, the returned size is the 32-bit
little-endian value at record offset 4, the identifier the 64-bit
little-endian value at offset 8, and the creation_time the 64-bit
little-endian value at offset 16. -/
theorem c9_fields_are_little_endian_reads (ev : EventValues)
    (chunk : List ℕ) (off : ℕ) (decoder : ℕ → Option ℕ) (fuel : ℕ)
    (tokens : List ℕ)
    (h : (libevtx_event_values_read ev chunk off decoder fuel).1
      = .ok tokens) :
    read_le chunk (off + 4) 4
      = some (libevtx_event_values_read ev chunk off decoder fuel).2.size ∧
    read_le chunk (off + 8) 8
      = some (libevtx_event_values_read ev chunk off
          decoder fuel).2.identifier ∧
    read_le chunk (off + 16) 8
      = some (libevtx_event_values_read ev chunk off
          decoder fuel).2.creation_time := by
  obtain ⟨h1, h2, h3, -, -, -, -⟩ :=
    read_header_ok_spec ev _ chunk off
      (read_fst_ok ev chunk off decoder fuel tokens h)
  exact ⟨h1, h2, h3⟩

/-- C9 witness: the successful read of the zero-payload record, whose
token walk consumes the 8 bytes after the header in one token. -/
theorem c9_fields_are_little_endian_reads_witness :
    (libevtx_event_values_read zeroed_event_values chunk_zero_payload 0
        (fun _ => some 8) 2).1 = .ok [8] ∧
    (read_le chunk_zero_payload (0 + 4) 4
      = some (libevtx_event_values_read zeroed_event_values
          chunk_zero_payload 0 (fun _ => some 8) 2).2.size ∧
    read_le chunk_zero_payload (0 + 8) 8
      = some (libevtx_event_values_read zeroed_event_values
          chunk_zero_payload 0 (fun _ => some 8) 2).2.identifier ∧
    read_le chunk_zero_payload (0 + 16) 8
      = some (libevtx_event_values_read zeroed_event_values
          chunk_zero_payload 0 (fun _ => some 8) 2).2.creation_time) :=
  ⟨by decide,
    c9_fields_are_little_endian_reads zeroed_event_values
      chunk_zero_payload 0 (fun _ => some 8) 2 [8] (by decide)⟩

/-- C10: freeing event values is NULL-tolerant and idempotent: with a
valid handle whose target is already NULL the call returns 1 and does
nothing, after any successful free the target is NULL, and a second
free also succeeds. -/
theorem c10_free_null_tolerant_idempotent (inner : Option EventValues) :
    libevtx_event_values_free (some none) = (1, some none) ∧
    (libevtx_event_values_free (some inner)).1 = 1 ∧
    (libevtx_event_values_free (some inner)).2 = some none ∧
    libevtx_event_values_free
        (libevtx_event_values_free (some inner)).2 = (1, some none) := by
  cases inner <;> exact ⟨rfl, rfl, rfl, rfl⟩

end Libevtx
